import Mathlib

/-!
Shallow embedding of
`src/vs/workbench/contrib/notebook/browser/view/renderers/cellEditorOptions.ts`:
the `CellEditorOptions` adapter (merged editor options for a notebook cell
editor), the notebook-wide line-number toggle action, and the per-cell
line-number toggle action.

JavaScript option objects are modelled as partial finite maps from string
keys to option values (`JsObj`); object spread `{...a, ...b}` becomes the
right-biased merge `spread a b`; property assignment `o[k] = v` becomes
`setKey o k v`.  `deepClone` is the identity on pure values.  External
services (configuration service, notebook options, view model) are modelled
as records of the fields and callbacks this file actually reads.
-/

set_option autoImplicit false

namespace NotebookCellEditor

/-- A primitive JavaScript value appearing inside a nested option object. -/
inductive PrimVal where
  | str (s : String)
  | num (n : Int)
  | bool (b : Bool)
  deriving DecidableEq, Repr

/-- A JavaScript value stored at a top-level key of an editor-options object:
a primitive, or a one-level nested object (scrollbar, minimap, padding). -/
inductive OptVal where
  | str (s : String)
  | num (n : Int)
  | bool (b : Bool)
  | obj (fields : List (String × PrimVal))
  deriving DecidableEq, Repr

/-- A JavaScript object viewed as a partial map from keys to values. -/
def JsObj : Type := String → Option OptVal

/-- The empty object `{}`. -/
def emptyObj : JsObj := fun _ => none

/-- Object spread `{...a, ...b}`: keys of `b` win over keys of `a`. -/
def spread (a b : JsObj) : JsObj := fun k =>
  match b k with
  | some v => some v
  | none => a k

/-- Property assignment `o[k] = v` (also models a one-key spread `{...o, k: v}`). -/
def setKey (o : JsObj) (k : String) (v : OptVal) : JsObj := fun k' =>
  if k' = k then some v else o k'

/-- The tri-state line-number mode `'on' | 'off' | 'inherit'`. -/
inductive LineNumbersMode where
  | on
  | off
  | inherit
  deriving DecidableEq, Repr

/-- The string a `LineNumbersMode` denotes in the TypeScript source. -/
def lineNumbersModeStr : LineNumbersMode → String
  | .on => "on"
  | .off => "off"
  | .inherit => "inherit"

/-- The configuration service, restricted to the two reads this file performs:
`getValue(key)` for plain keys and
`getValue<IEditorOptions>('editor', { overrideIdentifier: language })`. -/
structure ConfigurationService where
  getValue : String → Option OptVal
  getEditorOptions : String → JsObj

/-- Per-cell internal metadata; only handed to the padding callback, so its
contents are opaque here. -/
structure NotebookCellInternalMetadata where
  token : Nat
  deriving DecidableEq

/-- The notebook options object, restricted to what this file reads:
`getLayoutConfiguration().editorOptionsCustomizations` (possibly absent) and
the `computeEditorPadding` callback. -/
structure NotebookOptions where
  editorOptionsCustomizations : Option (List (String × OptVal))
  computeEditorPadding : NotebookCellInternalMetadata → OptVal

/-- The view-model options object: only `isReadOnly` is read. -/
structure ViewModelOptions where
  isReadOnly : Bool
  deriving DecidableEq

/-- The notebook view model, restricted to `options`. -/
structure NotebookViewModel where
  options : ViewModelOptions
  deriving DecidableEq

/-- The notebook editor handle, restricted to `viewModel` (absent when the
editor has no model). -/
structure INotebookEditor where
  viewModel : Option NotebookViewModel
  deriving DecidableEq

/-- `CellEditorOptions.fixedEditorOptions`, transcribed key by key. -/
def fixedEditorOptions : JsObj := fun k =>
  if k = "scrollBeyondLastLine" then some (.bool false)
  else if k = "scrollbar" then some (.obj
    [("verticalScrollbarSize", .num 14),
     ("horizontal", .str "auto"),
     ("useShadows", .bool true),
     ("verticalHasArrows", .bool false),
     ("horizontalHasArrows", .bool false),
     ("alwaysConsumeMouseWheel", .bool false)])
  else if k = "renderLineHighlightOnlyWhenFocus" then some (.bool true)
  else if k = "overviewRulerLanes" then some (.num 0)
  else if k = "selectOnLineNumbers" then some (.bool false)
  else if k = "lineNumbers" then some (.str "off")
  else if k = "lineDecorationsWidth" then some (.num 0)
  else if k = "folding" then some (.bool false)
  else if k = "fixedOverflowWidgets" then some (.bool true)
  else if k = "minimap" then some (.obj [("enabled", .bool false)])
  else if k = "renderValidationDecorations" then some (.str "on")
  else if k = "lineNumbersMinChars" then some (.num 3)
  else none

/-- `key.indexOf('editor.') === 0`: the key starts with the seven characters
`editor.`. -/
def hasEditorPfx (k : String) : Bool := decide (k.data.take 7 = "editor.".data)

/-- `key.substr(7)`: drop the seven-character `editor.` marker. -/
def stripEditorPfx (k : String) : String := String.mk (k.data.drop 7)

/-- The `for (let key in editorOptionsOverrideRaw)` loop of
`_computeEditorOptions`: keys carrying the `editor.` marker are stripped and
copied into a fresh object; later entries overwrite earlier ones, as JS
property assignment does. -/
def buildEditorOptionsOverride : List (String × OptVal) → JsObj
  | [] => emptyObj
  | kv :: rest => fun k' =>
    match buildEditorOptionsOverride rest k' with
    | some v => some v
    | none =>
      if hasEditorPfx kv.1 ∧ stripEditorPfx kv.1 = k' then some kv.2 else none

/-- `configurationService.getValue<'on' | 'off'>('notebook.lineNumbers') === 'on'`,
the read shared verbatim by `_computeEditorOptions`, `setLineNumbers`,
`ToggleLineNumberAction.run` and `ToggleActiveLineNumberAction.run`. -/
def readRenderLineNumbers (cfg : ConfigurationService) : Bool :=
  decide (cfg.getValue "notebook.lineNumbers" = some (OptVal.str "on"))

/-- The `{ top: 12, bottom: 12 }` padding object. -/
def defaultPadding : OptVal := .obj [("top", .num 12), ("bottom", .num 12)]

/-- `CellEditorOptions._computeEditorOptions`, in source order: derive
`lineNumbers` from the notebook-wide setting, read the language-scoped
editor options, build the stripped override mapping, then spread the six
layers of the `computed` object literal. -/
def computeEditorOptions (editor : INotebookEditor) (nbOptions : NotebookOptions)
    (cfg : ConfigurationService) (language : String) : JsObj :=
  let renderLineNumbers := readRenderLineNumbers cfg
  let lineNumbers : String := if renderLineNumbers then "on" else "off"
  let editorOptions := cfg.getEditorOptions language
  let editorOptionsOverrideRaw := nbOptions.editorOptionsCustomizations.getD []
  let editorOptionsOverride := buildEditorOptionsOverride editorOptionsOverrideRaw
  let derived : JsObj := fun k =>
    if k = "lineNumbers" then some (.str lineNumbers)
    else if k = "folding" then some (.bool (decide (lineNumbers = "on")))
    else none
  let paddingLayer : JsObj := fun k =>
    if k = "padding" then some defaultPadding else none
  let readOnlyLayer : JsObj := fun k =>
    if k = "readOnly" then
      some (.bool (((editor.viewModel.map fun vm => vm.options.isReadOnly).getD false)))
    else none
  spread (spread (spread (spread (spread editorOptions fixedEditorOptions)
    derived) editorOptionsOverride) paddingLayer) readOnlyLayer

/-- The adapter's mutable state: the cached `_value` and the `_lineNumbers`
mode. -/
structure CellEditorOptionsState where
  value : JsObj
  lineNumbersMode : LineNumbersMode

/-- `CellEditorOptions.getValue(internalMetadata?)`: a shallow copy of the
cached value with `padding` replaced, by the notebook-options callback when
metadata is supplied, by the fixed default otherwise. -/
def getValue (nbOptions : NotebookOptions) (s : CellEditorOptionsState)
    (internalMetadata : Option NotebookCellInternalMetadata) : JsObj :=
  setKey s.value "padding"
    (match internalMetadata with
     | some md => nbOptions.computeEditorPadding md
     | none => defaultPadding)

/-- `CellEditorOptions.setLineNumbers(lineNumbers)`: store the mode, patch
`lineNumbers` and `folding` in the cached value (re-deriving from the
notebook-wide setting when the stored mode is `'inherit'`), and fire the
change emitter once, unconditionally.  The second component counts the
`_onDidChange.fire()` calls performed. -/
def setLineNumbers (cfg : ConfigurationService) (s : CellEditorOptionsState)
    (lineNumbers : LineNumbersMode) : CellEditorOptionsState × Nat :=
  let s1 : CellEditorOptionsState := { s with lineNumbersMode := lineNumbers }
  if lineNumbers = .inherit then
    let renderLiNumbers := readRenderLineNumbers cfg
    let ln : String := if renderLiNumbers then "on" else "off"
    let v1 := setKey (setKey s1.value "lineNumbers" (.str ln)) "folding"
      (.bool (decide (ln = "on")))
    ({ s1 with value := v1 }, 1)
  else
    let v1 := setKey (setKey s1.value "lineNumbers"
      (.str (lineNumbersModeStr lineNumbers))) "folding"
      (.bool (decide (lineNumbers = .on)))
    ({ s1 with value := v1 }, 1)

/-- `CellEditorOptions._recomputeOptions`: replace the cached value by a fresh
computation and fire the change emitter once. -/
def recomputeOptions (editor : INotebookEditor) (nbOptions : NotebookOptions)
    (cfg : ConfigurationService) (language : String)
    (s : CellEditorOptionsState) : CellEditorOptionsState × Nat :=
  ({ s with value := computeEditorOptions editor nbOptions cfg language }, 1)

/-- `ToggleLineNumberAction.run`: read the notebook-wide setting, flip it, and
write it back.  The result lists the `configurationService.updateValue` calls
performed, in order. -/
def toggleLineNumberActionRun (cfg : ConfigurationService) :
    List (String × String) :=
  let renderLiNumbers := readRenderLineNumbers cfg
  if renderLiNumbers then
    [("notebook.lineNumbers", "off")]
  else
    [("notebook.lineNumbers", "on")]

/-- A cell view model, restricted to its mutable `lineNumbers` property. -/
structure ICellViewModel where
  lineNumbers : LineNumbersMode
  deriving DecidableEq, Repr

/-- A resolved notebook editor pane: whether it has a model, and its active
cell (possibly absent). -/
structure NotebookEditorModel where
  hasModel : Bool
  getActiveCell : Option ICellViewModel
  deriving DecidableEq

/-- The `if (cell) { ... }` body of `ToggleActiveLineNumberAction.run`:
decide whether line numbers are currently effectively on for the cell and
assign the flipped explicit mode. -/
def applyCellToggle (cfg : ConfigurationService) (cell : ICellViewModel) :
    Option (ICellViewModel × LineNumbersMode) :=
  let renderLineNumbers := readRenderLineNumbers cfg
  let cellLineNumbers := cell.lineNumbers
  let currentLineNumberIsOn :=
    cellLineNumbers = .on ∨ (cellLineNumbers = .inherit ∧ renderLineNumbers = true)
  if currentLineNumberIsOn then some (cell, .off) else some (cell, .on)

/-- `ToggleActiveLineNumberAction.run`: resolve the target cell from the
invocation context or from the active editor pane; when a cell is found,
write its new `lineNumbers` mode.  `none` means the action returned without
performing any write. -/
def toggleActiveLineNumberActionRun (cfg : ConfigurationService)
    (contextCell : Option ICellViewModel)
    (activeEditor : Option NotebookEditorModel) :
    Option (ICellViewModel × LineNumbersMode) :=
  match contextCell with
  | some cell => applyCellToggle cfg cell
  | none =>
    match activeEditor with
    | none => none
    | some editor =>
      if editor.hasModel then
        match editor.getActiveCell with
        | some cell => applyCellToggle cfg cell
        | none => none
      else none

/-! ### Basic lemmas about the object model -/

theorem setKey_self (o : JsObj) (k : String) (v : OptVal) : setKey o k v k = some v := by
  simp [setKey]

theorem setKey_ne (o : JsObj) (k k' : String) (v : OptVal) (h : k' ≠ k) :
    setKey o k v k' = o k' := by
  simp [setKey, h]

theorem spread_apply_some (a b : JsObj) (k : String) (v : OptVal) (h : b k = some v) :
    spread a b k = some v := by
  simp [spread, h]

theorem spread_apply_none (a b : JsObj) (k : String) (h : b k = none) :
    spread a b k = a k := by
  simp [spread, h]

theorem spread_emptyObj (a : JsObj) : spread emptyObj a = a := by
  funext k
  unfold spread emptyObj
  cases a k <;> rfl

/-! ### Sample concrete external states, used by witnesses and counterexamples -/

/-- A configuration state with `notebook.lineNumbers` set to `'off'` and no
generic editor options. -/
def cfgSampleOff : ConfigurationService where
  getValue := fun k => if k = "notebook.lineNumbers" then some (.str "off") else none
  getEditorOptions := fun _ => emptyObj

/-- A configuration state holding an invalid (non-string) value under
`notebook.lineNumbers`. -/
def cfgSampleBad : ConfigurationService where
  getValue := fun k => if k = "notebook.lineNumbers" then some (.num 3) else none
  getEditorOptions := fun _ => emptyObj

/-- Notebook options with no layout customizations and a padding callback
returning a non-default padding. -/
def nbOptionsSample : NotebookOptions where
  editorOptionsCustomizations := none
  computeEditorPadding := fun _ => .obj [("top", .num 6), ("bottom", .num 7)]

/-- An editor without a model. -/
def editorNoModel : INotebookEditor where
  viewModel := none

/-- A cached adapter state carrying one unrelated key. -/
def stateSample : CellEditorOptionsState where
  value := setKey emptyObj "fontSize" (.num 11)
  lineNumbersMode := .inherit

/-! ### Claim theorems -/

/-- C5: `getValue()` with no metadata returns the cached value with `padding`
replaced by `{top: 12, bottom: 12}`; `getValue(metadata)` replaces `padding`
by the notebook-options padding callback's result; every other key is read
unchanged from the cached value, which the read (a pure shallow copy)
leaves untouched. -/
theorem getValue_padding_frame (nbOptions : NotebookOptions)
    (s : CellEditorOptionsState) (md : NotebookCellInternalMetadata) :
    getValue nbOptions s none "padding" = some defaultPadding
    ∧ getValue nbOptions s (some md) "padding" = some (nbOptions.computeEditorPadding md)
    ∧ (∀ (m : Option NotebookCellInternalMetadata) (k : String), k ≠ "padding" →
        getValue nbOptions s m k = s.value k) := by
  refine ⟨by simp [getValue, setKey], by simp [getValue, setKey], ?_⟩
  intro m k hk
  simp [getValue, setKey, hk]

theorem getValue_padding_frame_witness :
    getValue nbOptionsSample stateSample none "fontSize" = stateSample.value "fontSize" :=
  (getValue_padding_frame nbOptionsSample stateSample ⟨0⟩).2.2 none "fontSize" (by decide)

/-- C9: `setLineNumbers` patches the cached value in place, modifying only its
`lineNumbers` and `folding` keys; every other key of the cached value is
unchanged by the call. -/
theorem setLineNumbers_frame (cfg : ConfigurationService) (s : CellEditorOptionsState)
    (mode : LineNumbersMode) (k : String)
    (h1 : k ≠ "lineNumbers") (h2 : k ≠ "folding") :
    (setLineNumbers cfg s mode).1.value k = s.value k := by
  unfold setLineNumbers
  split <;> simp [setKey, h1, h2]

theorem setLineNumbers_frame_witness :
    (setLineNumbers cfgSampleOff stateSample .on).1.value "fontSize" =
      stateSample.value "fontSize" :=
  setLineNumbers_frame cfgSampleOff stateSample .on "fontSize" (by decide) (by decide)

/-- C7: the notebook-wide toggle performs exactly one configuration write,
of `'off'` when the current `notebook.lineNumbers` value is exactly `'on'`,
and of `'on'` otherwise; the returned write list is its complete effect. -/
theorem toggleLineNumberActionRun_flips (cfg : ConfigurationService) :
    toggleLineNumberActionRun cfg =
      [("notebook.lineNumbers",
        if cfg.getValue "notebook.lineNumbers" = some (OptVal.str "on")
        then "off" else "on")] := by
  unfold toggleLineNumberActionRun readRenderLineNumbers
  by_cases h : cfg.getValue "notebook.lineNumbers" = some (OptVal.str "on") <;> simp [h]

/-- C3: for every cell and notebook-wide setting, the per-cell toggle writes
`'off'` exactly when the cell's mode is `'on'`, or is `'inherit'` while the
notebook-wide setting renders line numbers; otherwise it writes `'on'`; it
never writes `'inherit'`. -/
theorem toggleActiveLineNumber_toggles (cfg : ConfigurationService)
    (c : ICellViewModel) (ed : Option NotebookEditorModel) :
    toggleActiveLineNumberActionRun cfg (some c) ed =
      some (c, if c.lineNumbers = .on ∨ (c.lineNumbers = .inherit ∧ readRenderLineNumbers cfg = true)
        then LineNumbersMode.off else LineNumbersMode.on)
    ∧ toggleActiveLineNumberActionRun cfg (some c) ed ≠ some (c, LineNumbersMode.inherit) := by
  by_cases hOn : c.lineNumbers = LineNumbersMode.on ∨
      (c.lineNumbers = LineNumbersMode.inherit ∧ readRenderLineNumbers cfg = true) <;>
    constructor <;>
    simp [toggleActiveLineNumberActionRun, applyCellToggle, hOn]

theorem toggleActiveLineNumber_toggles_witness :
    toggleActiveLineNumberActionRun cfgSampleOff (some ⟨.inherit⟩) none ≠
      some (⟨.inherit⟩, LineNumbersMode.inherit) :=
  (toggleActiveLineNumber_toggles cfgSampleOff ⟨.inherit⟩ none).2

/-- C6: when the invocation context carries no cell and no active notebook
editor with a model and an active cell is resolvable, the per-cell toggle
returns without performing any write (and, being a total function, without
throwing). -/
theorem toggleActiveLineNumber_noop (cfg : ConfigurationService)
    (ed : Option NotebookEditorModel)
    (h : ed = none ∨ ∃ e, ed = some e ∧ (e.hasModel = false ∨ e.getActiveCell = none)) :
    toggleActiveLineNumberActionRun cfg none ed = none := by
  rcases h with h | ⟨e, rfl, h⟩
  · subst h; rfl
  · rcases h with h | h
    · simp [toggleActiveLineNumberActionRun, h]
    · cases hM : e.hasModel <;> simp [toggleActiveLineNumberActionRun, h, hM]

theorem toggleActiveLineNumber_noop_witness :
    toggleActiveLineNumberActionRun cfgSampleOff none none = none :=
  toggleActiveLineNumber_noop cfgSampleOff none (Or.inl rfl)

/-- C4: `setLineNumbers(mode)` writes `lineNumbers` and `folding` into the
cached value, re-deriving `'on'/'off'` from the notebook-wide setting when
the mode is `'inherit'` and using the mode directly otherwise, and fires
exactly one change notification unconditionally; in particular
`setLineNumbers('on')` followed by `setLineNumbers('inherit')` under the
notebook-wide setting `'off'` leaves `lineNumbers === 'off'`. -/
theorem setLineNumbers_spec (cfg : ConfigurationService) (s : CellEditorOptionsState)
    (mode : LineNumbersMode) :
    (setLineNumbers cfg s mode).2 = 1
    ∧ (setLineNumbers cfg s mode).1.value "lineNumbers" =
        some (.str (if mode = .inherit
          then (if readRenderLineNumbers cfg then "on" else "off")
          else lineNumbersModeStr mode))
    ∧ (setLineNumbers cfg s mode).1.value "folding" =
        some (.bool (if mode = .inherit then readRenderLineNumbers cfg
          else decide (mode = .on)))
    ∧ (cfg.getValue "notebook.lineNumbers" = some (OptVal.str "off") →
        (setLineNumbers cfg (setLineNumbers cfg s .on).1 .inherit).1.value "lineNumbers" =
          some (.str "off")) := by
  have hoff : ∀ (t : CellEditorOptionsState),
      cfg.getValue "notebook.lineNumbers" = some (OptVal.str "off") →
      (setLineNumbers cfg t .inherit).1.value "lineNumbers" = some (.str "off") := by
    intro t h
    have hr : readRenderLineNumbers cfg = false := by
      simp [readRenderLineNumbers, h]
    simp [setLineNumbers, setKey, hr]
  refine ⟨?_, ?_, ?_, fun h => hoff _ h⟩
  · cases mode <;> rfl
  · cases mode <;> cases hr : readRenderLineNumbers cfg <;>
      simp [setLineNumbers, setKey, lineNumbersModeStr, hr]
  · cases mode <;> cases hr : readRenderLineNumbers cfg <;>
      simp [setLineNumbers, setKey, lineNumbersModeStr, hr]

theorem setLineNumbers_spec_witness :
    (setLineNumbers cfgSampleOff (setLineNumbers cfgSampleOff stateSample .on).1
      .inherit).1.value "lineNumbers" = some (OptVal.str "off") :=
  (setLineNumbers_spec cfgSampleOff stateSample .on).2.2.2 (by decide)

/-- The invariant claimed by the spec: the cached object's `folding` value is
exactly the boolean `lineNumbers === 'on'`. -/
def lnFoldingInv (o : JsObj) : Prop :=
  o "folding" = some (OptVal.bool (decide (o "lineNumbers" = some (OptVal.str "on"))))

/-- Notebook options carrying the layout customization
`{ "editor.folding": true }`. -/
def nbOptionsFoldingCustom : NotebookOptions where
  editorOptionsCustomizations := some [("editor.folding", OptVal.bool true)]
  computeEditorPadding := fun _ => defaultPadding

/-- C1 counterexample: with the notebook-wide setting `'off'` and the layout
customization `{ "editor.folding": true }`, recomputation produces
`folding = true` while `lineNumbers = 'off'`, because the customization
override is spread after the derived pair.  The claimed invariant fails. -/
theorem computeEditorOptions_inv_counterexample :
    ¬ lnFoldingInv (computeEditorOptions editorNoModel nbOptionsFoldingCustom
      cfgSampleOff "python") := by
  unfold lnFoldingInv
  decide

/-- C1 amended: the invariant `folding === (lineNumbers === 'on')` always
holds after any `setLineNumbers` call; after a recomputation it holds
provided the layout-customization override mapping defines neither a
`lineNumbers` nor a `folding` key (that is, there is no `editor.lineNumbers`
or `editor.folding` customization). -/
theorem lnFolding_invariant_amended
    (editor : INotebookEditor) (nbOptions : NotebookOptions)
    (cfg : ConfigurationService) (language : String)
    (s : CellEditorOptionsState) (mode : LineNumbersMode) :
    ((buildEditorOptionsOverride (nbOptions.editorOptionsCustomizations.getD [])
        "lineNumbers" = none) →
     (buildEditorOptionsOverride (nbOptions.editorOptionsCustomizations.getD [])
        "folding" = none) →
     lnFoldingInv (computeEditorOptions editor nbOptions cfg language))
    ∧ lnFoldingInv ((setLineNumbers cfg s mode).1.value) := by
  constructor
  · intro h1 h2
    cases hr : readRenderLineNumbers cfg <;>
      simp [lnFoldingInv, computeEditorOptions, spread, fixedEditorOptions,
        h1, h2, hr]
  · cases mode <;> cases hr : readRenderLineNumbers cfg <;>
      simp [lnFoldingInv, setLineNumbers, setKey, lineNumbersModeStr, hr]

theorem lnFolding_invariant_amended_witness :
    lnFoldingInv (computeEditorOptions editorNoModel nbOptionsSample
      cfgSampleOff "python") :=
  (lnFolding_invariant_amended editorNoModel nbOptionsSample cfgSampleOff "python"
    stateSample .on).1 (by decide) (by decide)

/-! ### The six merge layers, as the spec enumerates them -/

/-- Layer 1: language-scoped generic editor options. -/
def genericEditorOptionsLayer (cfg : ConfigurationService) (language : String) : JsObj :=
  cfg.getEditorOptions language

/-- Layer 3: the derived pair `{lineNumbers, folding: lineNumbers === 'on'}`. -/
def derivedLineNumbersLayer (cfg : ConfigurationService) : JsObj := fun k =>
  let lineNumbers : String := if readRenderLineNumbers cfg then "on" else "off"
  if k = "lineNumbers" then some (.str lineNumbers)
  else if k = "folding" then some (.bool (decide (lineNumbers = "on")))
  else none

/-- Layer 4: the layout-customization override mapping. -/
def editorOptionsOverrideLayer (nbOptions : NotebookOptions) : JsObj :=
  buildEditorOptionsOverride (nbOptions.editorOptionsCustomizations.getD [])

/-- Layer 5: `{ padding: { top: 12, bottom: 12 } }`. -/
def paddingDefaultLayer : JsObj := fun k =>
  if k = "padding" then some defaultPadding else none

/-- Layer 6: `{ readOnly: viewModel?.options.isReadOnly ?? false }`. -/
def readOnlyFlagLayer (editor : INotebookEditor) : JsObj := fun k =>
  if k = "readOnly" then
    some (.bool (((editor.viewModel.map fun vm => vm.options.isReadOnly).getD false)))
  else none

/-- Merging a list of layers left to right, later layers winning on key
conflict. -/
def mergeLayers (layers : List JsObj) : JsObj := layers.foldl spread emptyObj

/-- C2: the recomputed options are exactly the merge of the six layers, in
the claimed order, with later layers winning on key conflicts: generic
language-scoped editor options, the fixed options, the derived
lineNumbers/folding pair, the layout-customization override mapping, the
default padding, and the editor's read-only flag (false without a
view model). -/
theorem computeEditorOptions_six_layers (editor : INotebookEditor)
    (nbOptions : NotebookOptions) (cfg : ConfigurationService) (language : String) :
    computeEditorOptions editor nbOptions cfg language =
      mergeLayers [genericEditorOptionsLayer cfg language, fixedEditorOptions,
        derivedLineNumbersLayer cfg, editorOptionsOverrideLayer nbOptions,
        paddingDefaultLayer, readOnlyFlagLayer editor] := by
  unfold mergeLayers
  simp only [List.foldl]
  rw [spread_emptyObj]
  rfl

/-! ### The override loop: characterization of prefixed keys -/

theorem buildEditorOptionsOverride_cons (kv : String × OptVal)
    (rest : List (String × OptVal)) (k' : String) :
    buildEditorOptionsOverride (kv :: rest) k' =
      match buildEditorOptionsOverride rest k' with
      | some v => some v
      | none =>
        if hasEditorPfx kv.1 ∧ stripEditorPfx kv.1 = k' then some kv.2 else none := rfl

/-- A key passes the marker test with stripped remainder `k'` exactly when it
is `"editor." ++ k'`. -/
theorem editorPfx_iff (k k' : String) :
    (hasEditorPfx k ∧ stripEditorPfx k = k') ↔ k = "editor." ++ k' := by
  constructor
  · rintro ⟨h1, h2⟩
    have ht : k.data.take 7 = "editor.".data := of_decide_eq_true h1
    have hdrop : k.data.drop 7 = k'.data := by
      have h3 := congrArg String.data h2
      simpa [stripEditorPfx] using h3
    apply String.ext
    rw [String.data_append]
    calc k.data = k.data.take 7 ++ k.data.drop 7 := (List.take_append_drop 7 k.data).symm
      _ = "editor.".data ++ k'.data := by rw [ht, hdrop]
  · rintro rfl
    have hlen : ("editor." : String).data.length = 7 := rfl
    constructor
    · apply decide_eq_true
      rw [String.data_append]
      have h4 := List.take_left ("editor." : String).data k'.data
      rwa [hlen] at h4
    · apply String.ext
      show (("editor." ++ k' : String).data.drop 7) = k'.data
      rw [String.data_append]
      have h5 := List.drop_left ("editor." : String).data k'.data
      rwa [hlen] at h5

theorem buildEditorOptionsOverride_eq_some_iff (raw : List (String × OptVal))
    (k' : String) :
    (raw.map Prod.fst).Nodup →
    ∀ v, (buildEditorOptionsOverride raw k' = some v ↔ ("editor." ++ k', v) ∈ raw) := by
  induction raw with
  | nil =>
    intro _ v
    simp [buildEditorOptionsOverride, emptyObj]
  | cons kv rest ih =>
    intro hnd v
    rw [List.map_cons] at hnd
    obtain ⟨hk, hrest⟩ := List.nodup_cons.mp hnd
    rw [buildEditorOptionsOverride_cons]
    cases h : buildEditorOptionsOverride rest k' with
    | some w =>
      have hw : ("editor." ++ k', w) ∈ rest := (ih hrest w).mp h
      have hkey : ("editor." ++ k') ∈ rest.map Prod.fst :=
        List.mem_map.mpr ⟨_, hw, rfl⟩
      constructor
      · intro hv
        injection hv with hv
        subst hv
        exact List.mem_cons_of_mem _ hw
      · intro hv
        rcases List.mem_cons.mp hv with hv | hv
        · exfalso
          apply hk
          have h1 : kv.1 = "editor." ++ k' := (congrArg Prod.fst hv).symm
          rw [h1]
          exact hkey
        · have h2 := (ih hrest v).mpr hv
          rw [h] at h2
          injection h2 with h2
          rw [h2]
    | none =>
      by_cases hp : kv.1 = "editor." ++ k'
      · rw [if_pos ((editorPfx_iff kv.1 k').mpr hp)]
        have hnotrest : ("editor." ++ k', v) ∉ rest := by
          intro hmem
          have h3 := (ih hrest v).mpr hmem
          rw [h] at h3
          exact Option.noConfusion h3
        constructor
        · intro hv
          injection hv with hv
          subst hv
          refine List.mem_cons.mpr (Or.inl ?_)
          rw [Prod.ext_iff]
          exact ⟨hp.symm, rfl⟩
        · intro hv
          rcases List.mem_cons.mp hv with hv | hv
          · have h6 : v = kv.2 := congrArg Prod.snd hv
            rw [h6]
          · exact absurd hv hnotrest
      · rw [if_neg]
        · constructor
          · intro hv
            exact Option.noConfusion hv
          · intro hv
            rcases List.mem_cons.mp hv with hv | hv
            · exact absurd (congrArg Prod.fst hv).symm hp
            · have h7 := (ih hrest v).mpr hv
              rw [h] at h7
              exact Option.noConfusion h7
        · intro hc
          exact hp ((editorPfx_iff kv.1 k').mp hc)

/-- C8: for every layout-customizations mapping (an absent mapping reading as
empty) with pairwise-distinct keys, the override mapping contains exactly the
entries whose key carries the `editor.` marker, with the marker stripped and
the value unchanged; unmarked keys contribute nothing. -/
theorem editorOptionsOverride_exact (custom : Option (List (String × OptVal)))
    (k' : String) (v : OptVal)
    (hnd : ((custom.getD []).map Prod.fst).Nodup) :
    buildEditorOptionsOverride (custom.getD []) k' = some v ↔
      ("editor." ++ k', v) ∈ custom.getD [] :=
  buildEditorOptionsOverride_eq_some_iff (custom.getD []) k' hnd v

theorem editorOptionsOverride_exact_witness :
    buildEditorOptionsOverride
      ((some [("editor.fontSize", OptVal.num 20), ("notebook.x", OptVal.num 1)] :
        Option (List (String × OptVal))).getD []) "fontSize" = some (OptVal.num 20) :=
  (editorOptionsOverride_exact
    (some [("editor.fontSize", OptVal.num 20), ("notebook.x", OptVal.num 1)])
    "fontSize" (OptVal.num 20) (by decide)).mpr (by decide)

/-- C10: every read of `notebook.lineNumbers` treats any value other than
exactly the string `'on'` (absence and invalid values included) as `'off'`:
the shared read derives `false`, recomputation derives `lineNumbers = 'off'`
(when no customization overrides the key), `setLineNumbers('inherit')`
writes `'off'`, the notebook-wide toggle writes `'on'`, and the per-cell
toggle on an inheriting cell treats it as currently off and writes `'on'`. -/
theorem lineNumbersSetting_nonOn_isOff (cfg : ConfigurationService)
    (editor : INotebookEditor) (nbOptions : NotebookOptions) (language : String)
    (s : CellEditorOptionsState) (c : ICellViewModel)
    (h : cfg.getValue "notebook.lineNumbers" ≠ some (OptVal.str "on"))
    (hov : buildEditorOptionsOverride (nbOptions.editorOptionsCustomizations.getD [])
      "lineNumbers" = none)
    (hc : c.lineNumbers = .inherit) :
    readRenderLineNumbers cfg = false
    ∧ computeEditorOptions editor nbOptions cfg language "lineNumbers" =
        some (OptVal.str "off")
    ∧ (setLineNumbers cfg s .inherit).1.value "lineNumbers" = some (OptVal.str "off")
    ∧ toggleLineNumberActionRun cfg = [("notebook.lineNumbers", "on")]
    ∧ toggleActiveLineNumberActionRun cfg (some c) none =
        some (c, LineNumbersMode.on) := by
  have hr : readRenderLineNumbers cfg = false := by
    simp [readRenderLineNumbers, h]
  refine ⟨hr, ?_, ?_, ?_, ?_⟩
  · simp [computeEditorOptions, spread, fixedEditorOptions, hov, hr]
  · simp [setLineNumbers, setKey, hr]
  · simp [toggleLineNumberActionRun, hr]
  · simp [toggleActiveLineNumberActionRun, applyCellToggle, hc, hr]

theorem lineNumbersSetting_nonOn_isOff_witness :
    readRenderLineNumbers cfgSampleBad = false :=
  (lineNumbersSetting_nonOn_isOff cfgSampleBad editorNoModel nbOptionsSample "python"
    stateSample ⟨.inherit⟩ (by decide) (by decide) (by decide)).1

end NotebookCellEditor
